import Mathlib

/-!
Shallow embedding of the agent spawn orchestrator in
`src/claude_mcp_tools/tools/agents.py`: wave scheduling
(`_organize_by_dependencies`), batch coordination (`spawn_agents_batch`),
single-agent spawning (`_spawn_single_agent`), status reads
(`get_agent_status`) and termination (`terminate_agent`).

External collaborators (AgentService, CommunicationService, the Claude CLI
launcher, psutil) are modelled as explicit environment values supplied to
each call, and the calls made to them are recorded in effect logs.  Pure
Python values (dicts, lists, strings) become Lean structures and lists;
dict keys that may be absent become `Option` fields.
-/

/-- One agent request dictionary from a batch (`agents_config[i]`).  Keys that
the embedded code reads with `.get` and that may be absent are `Option`
fields; `depends_on` defaults to `[]` exactly as `get("depends_on", [])`
does.  Keys not read by the embedded paths (capabilities, initial_context,
configuration) are omitted. -/
structure AgentConfig where
  agent_id : Option String
  agent_type : Option String
  task_description : Option String
  depends_on : List String
  deriving DecidableEq, Repr, Inhabited

/-- The per-dependency match test of `_organize_by_dependencies` (line 818):
`other_config.get("agent_id") == dep or str(j) == str(dep) or
other_config.get("agent_type") == dep` for the request at index `j`. -/
def depMatches (cfgs : List AgentConfig) (j : Nat) (dep : String) : Bool :=
  let other := cfgs.getD j default
  other.agent_id == some dep || Nat.repr j == dep || other.agent_type == some dep

/-- `dep_found` of `_organize_by_dependencies`: some request index `j` that is
already in `placed_agents` matches the dependency reference `dep`. -/
def depSatisfied (cfgs : List AgentConfig) (placed : List Nat) (dep : String) : Bool :=
  (List.range cfgs.length).any fun j => placed.contains j && depMatches cfgs j dep

/-- `dependencies_satisfied` for the request at index `i` (the inner loop of
`_organize_by_dependencies`); `not depends_on or dependencies_satisfied`
is equivalent to `all` over the dependency list. -/
def depsOk (cfgs : List AgentConfig) (placed : List Nat) (i : Nat) : Bool :=
  ((cfgs.getD i default).depends_on).all fun dep => depSatisfied cfgs placed dep

/-- One full scan of the `for i, agent_config in enumerate(agents_config)`
loop body of `_organize_by_dependencies`: returns the indices appended to
`current_wave`, in scan order.  `placed` plays the role of `placed_agents`,
which the Python loop mutates as it appends, so each accepted index is
added to `placed` before the rest of the scan continues. -/
def scanWave (cfgs : List AgentConfig) : List Nat → List Nat → List Nat
  | _, [] => []
  | placed, i :: rest =>
    if placed.contains i then scanWave cfgs placed rest
    else if depsOk cfgs placed i then i :: scanWave cfgs (placed ++ [i]) rest
    else scanWave cfgs placed rest

/-- The `while len(placed_agents) < len(agents_config)` loop of
`_organize_by_dependencies`, run on request indices.  Returns the committed
waves together with the deadlock-fallback wave (`some remaining` when the
scan placed nothing and the loop broke).  The loop terminates because every
committed wave places at least one request; `fuel = length + 1` is enough
and the fuel-exhausted branch is unreachable from the entry point. -/
def organizeAux (cfgs : List AgentConfig) : Nat → List Nat → List (List Nat) × Option (List Nat)
  | 0, _ => ([], none)
  | fuel + 1, placed =>
    if placed.length < cfgs.length then
      let w := scanWave cfgs placed (List.range cfgs.length)
      if w.isEmpty then
        ([], some ((List.range cfgs.length).filter fun i => !placed.contains i))
      else
        let r := organizeAux cfgs fuel (placed ++ w)
        (w :: r.1, r.2)
    else ([], none)

/-- The waves committed by non-empty scans, as request indices. -/
def committedWaves (cfgs : List AgentConfig) : List (List Nat) :=
  (organizeAux cfgs (cfgs.length + 1) []).1

/-- The deadlock-fallback wave of remaining request indices, when the break
branch of `_organize_by_dependencies` was taken. -/
def fallbackWave (cfgs : List AgentConfig) : Option (List Nat) :=
  (organizeAux cfgs (cfgs.length + 1) []).2

/-- All waves in order, as request indices: the committed waves followed by
the fallback wave (which Python appends only `if remaining_agents`). -/
def waveIndices (cfgs : List AgentConfig) : List (List Nat) :=
  committedWaves cfgs ++
    (match fallbackWave cfgs with
      | some r => if r.isEmpty then [] else [r]
      | none => [])

/-- `_organize_by_dependencies`: the waves as lists of request configs (the
Python waves hold the `agent_config` dicts themselves, i.e. the configs at
the placed indices, in placement order). -/
def organize_by_dependencies (cfgs : List AgentConfig) : List (List AgentConfig) :=
  (waveIndices cfgs).map fun w => w.map fun i => cfgs.getD i default

/-- A result dict produced by one `_spawn_single_agent` call as seen by the
batch classification loop: only `get("success")` and
`get("error", "Unknown error")` are read there; `agent_id` stands for the
rest of the payload so distinct results can be told apart. -/
structure ItemDict where
  success : Bool
  error : Option String
  agent_id : String
  deriving DecidableEq, Repr, Inhabited

/-- The outcome of one spawn call as it lands in `results`: either a returned
dict, or an exception reified as a value (sequential mode's `except` clause
and `asyncio.gather(..., return_exceptions=True)` both do this). -/
inductive CallOutcome
  | result (d : ItemDict)
  | raised (msg : String)
  deriving DecidableEq, Repr, Inhabited

/-- One `failed_agents` entry: `{"index": i, "agent_config": agents_config[i],
"error": str(result)}`. -/
structure FailedEntry where
  index : Nat
  agent_config : AgentConfig
  error : String
  deriving DecidableEq, Repr, Inhabited

/-- The `batch_stats` dict of a batch result. -/
structure BatchStats where
  total_requested : Nat
  successful : Nat
  failed : Nat
  deriving DecidableEq, Repr, Inhabited

/-- The success payload of `spawn_agents_batch`. -/
structure BatchResult where
  batch_stats : BatchStats
  successful_agents : List ItemDict
  failed_agents : List FailedEntry
  deriving DecidableEq, Repr, Inhabited

/-- The value returned by `spawn_agents_batch`: a structured error dict or
the batch payload. -/
inductive BatchOutput
  | errorResult (code message : String)
  | ok (r : BatchResult)
  deriving DecidableEq, Repr, Inhabited

/-- The `coordination_mode` parameter of `spawn_agents_batch`. -/
inductive CoordinationMode
  | sequential
  | dependency_based
  | parallel
  deriving DecidableEq, Repr, Inhabited

/-- The validation loop of `spawn_agents_batch` (lines 146-153): the first
missing required field, as (code, message), with `agent_type` checked
before `task_description`. -/
def findMissingField : Nat → List AgentConfig → Option (String × String)
  | _, [] => none
  | i, c :: rest =>
    if c.agent_type.isNone then
      some ("MISSING_REQUIRED_FIELD", "Agent " ++ Nat.repr i ++ " missing required field: agent_type")
    else if c.task_description.isNone then
      some ("MISSING_REQUIRED_FIELD", "Agent " ++ Nat.repr i ++ " missing required field: task_description")
    else findMissingField (i + 1) rest

/-- The `results` list built by `spawn_agents_batch` for each mode, with the
per-request spawn outcome supplied by `oracle` (abstracting
`_spawn_single_agent` together with the exception reification described at
`CallOutcome`).  Sequential appends one outcome per config in input order;
dependency mode gathers each wave of `_organize_by_dependencies` in turn
and extends `results` with it; parallel gathers over the input order (task
order, which `asyncio.gather` preserves in its result list). -/
def batchResults (oracle : AgentConfig → CallOutcome) (cfgs : List AgentConfig) :
    CoordinationMode → List CallOutcome
  | .sequential => cfgs.map oracle
  | .dependency_based => ((organize_by_dependencies cfgs).map fun wave => wave.map oracle).flatten
  | .parallel => cfgs.map oracle

/-- The spawned-request order per mode: the configs handed to
`_spawn_single_agent`, in execution order, so that
`batchResults oracle cfgs mode = (batchSpawnOrder cfgs mode).map oracle`. -/
def batchSpawnOrder (cfgs : List AgentConfig) : CoordinationMode → List AgentConfig
  | .sequential => cfgs
  | .dependency_based => (organize_by_dependencies cfgs).flatten
  | .parallel => cfgs

/-- The result-classification loop of `spawn_agents_batch` (lines 228-242):
`for i, result in enumerate(results)`, pairing the i-th result with
`agents_config[i]` on failure.  Returns (successful_agents, failed_agents)
in append order. -/
def classifyGo (cfgs : List AgentConfig) : Nat → List CallOutcome → List ItemDict × List FailedEntry
  | _, [] => ([], [])
  | i, r :: rest =>
    let tailRes := classifyGo cfgs (i + 1) rest
    match r with
    | .raised msg => (tailRes.1, ⟨i, cfgs.getD i default, msg⟩ :: tailRes.2)
    | .result d =>
      if d.success then (d :: tailRes.1, tailRes.2)
      else (tailRes.1, ⟨i, cfgs.getD i default, d.error.getD "Unknown error"⟩ :: tailRes.2)

/-- `spawn_agents_batch`: validation (empty list, required fields), mode
dispatch, classification and aggregation.  The JSON-string parsing and the
non-list / non-dict input checks are upstream of the modelled inputs, and
the outer `except` that yields BATCH_SPAWN_FAILED is unreachable here
because every collaborator outcome is reified as a value. -/
def spawn_agents_batch (oracle : AgentConfig → CallOutcome) (cfgs : List AgentConfig)
    (mode : CoordinationMode) : BatchOutput :=
  if cfgs.isEmpty then .errorResult "EMPTY_AGENTS_LIST" "No agents specified"
  else
    match findMissingField 0 cfgs with
    | some e => .errorResult e.1 e.2
    | none =>
      let results := batchResults oracle cfgs mode
      let cls := classifyGo cfgs 0 results
      .ok ⟨⟨cfgs.length, cls.1.length, cls.2.length⟩, cls.1, cls.2⟩

/-- The agent status enum (`..models.AgentStatus`) as named in the source:
ACTIVE, IDLE and TERMINATED are used by `_spawn_single_agent`; PENDING is
the creation state and COMPLETED the clean-exit state of the spec's state
machine. -/
inductive AgentStatus
  | pending
  | idle
  | active
  | completed
  | terminated
  deriving DecidableEq, Repr, Inhabited

/-- The dict returned by `AgentService.create_agent`: `get("success")`,
`["agent_id"]` (read only on success) and `get("error", "Unknown error")`. -/
structure CreateAgentResult where
  success : Bool
  agent_id : String
  error : Option String
  deriving DecidableEq, Repr, Inhabited

/-- The dict returned by `spawn_claude_with_profile` plus the state of the
process handle it carries: `get("success", False)`, `get("error", ...)`,
`get("process")` truthiness, `process.poll() is not None` (already exited)
with its `returncode`, and `get("pid")`. -/
structure LaunchResult where
  success : Bool
  error : Option String
  has_process : Bool
  poll_finished : Bool
  returncode : Int
  pid : Option Nat
  deriving DecidableEq, Repr, Inhabited

/-- The external world of one `_spawn_single_agent` call: the collaborator
outcomes it will observe, in order.  `spawn_available` is
`_spawn_claude_sync is not None`; `status_update_ok` / `pid_update_ok` say
whether `AgentService.update_agent_status` / `update_agent_pid` raise
(their failures are caught and only logged); `now` stands for the
`datetime.now(timezone.utc).isoformat()` reading used in timestamps. -/
structure SpawnEnv where
  create_agent : CreateAgentResult
  spawn_available : Bool
  launch : LaunchResult
  status_update_ok : Bool
  pid_update_ok : Bool
  now : String
  deriving DecidableEq, Repr, Inhabited

/-- The `agent_data` dict handed to `AgentService.update_agent_status`
(`updated_config` on success, `failed_config` on spawn failure).  The
caller-supplied `parsed_configuration` base that these keys are merged
into is elided: the update overwrites exactly these keys in both paths. -/
structure ExecConfig where
  claude_pid : Option Nat
  spawn_error : Option String
  coordination_room : String
  foundation_session_id : String
  dependencies : List String
  task_description : String
  spawn_success : Bool
  deriving DecidableEq, Repr, Inhabited

/-- The `execution_info` dict of the spawn result: empty when auto-execution
is off, the started payload after a validated launch, or the failure
payload built in the `except` handler (error text, error type, failed_at
timestamp). -/
inductive ExecutionInfo
  | empty
  | started (claude_pid : Nat) (foundation_session_id room started_at : String)
  | failed (error error_type failed_at : String)
  deriving DecidableEq, Repr, Inhabited

/-- The collaborator calls one `_spawn_single_agent` call performed:
whether the launcher ran, which room it created or joined, the
`update_agent_status` calls that reached the store (status, agent_data),
and the `update_agent_pid` calls that reached the store. -/
structure SpawnEffects where
  launcher_called : Bool
  room_created : Option String
  room_join_attempted : Option String
  status_updates : List (AgentStatus × ExecConfig)
  pid_updates : List Nat
  deriving DecidableEq, Repr, Inhabited

/-- The success-shaped dict returned at the end of `_spawn_single_agent`
(lines 777-790); `claude_pid` stays `None` when auto-execution failed. -/
structure SpawnSuccess where
  agent_id : String
  agent_type : String
  agent_name : String
  task_description : String
  auto_execute : Bool
  claude_pid : Option Nat
  execution_info : ExecutionInfo
  coordination_room : String
  deriving DecidableEq, Repr, Inhabited

/-- The value returned by `_spawn_single_agent`: the success-shaped dict or
one of its error dicts (`{"error": {"code": ..., "message": ...}}`). -/
inductive SpawnCallResult
  | success (p : SpawnSuccess)
  | error (code message : String)
  deriving DecidableEq, Repr, Inhabited

/-- True exactly when a `_spawn_single_agent` return value is one of its
`{"error": ...}` dicts. -/
def isErrorResult : SpawnCallResult → Bool
  | .error _ _ => true
  | .success _ => false

/-- The strict launch validation of `_spawn_single_agent` (lines 629-656), in
source order: success flag, process object present, process not already
exited (`poll() is not None`), PID present and truthy (`if not claude_pid`
also fires on pid 0).  Each failure raises RuntimeError with the message
built at that check. -/
def validateLaunch (launch : LaunchResult) : Except String Nat :=
  if !launch.success then
    .error ("Claude CLI spawn failed: " ++ launch.error.getD "Unknown spawn error")
  else if !launch.has_process then
    .error "No process object returned from spawn"
  else if launch.poll_finished then
    .error ("Process died immediately with code " ++ toString launch.returncode)
  else
    match launch.pid with
    | none => .error "Claude CLI spawn succeeded but no PID returned"
    | some p =>
      if p == 0 then .error "Claude CLI spawn succeeded but no PID returned"
      else .ok p

/-- The room name resolution of `_spawn_single_agent` (line 468):
`coordination_room or f"{agent_type}-{agent_id[:8]}"`. -/
def roomNameOf (coordination_room agent_type agent_id : String) : String :=
  if coordination_room != "" then coordination_room
  else agent_type ++ "-" ++ agent_id.take 8

/-- `_spawn_single_agent`.  Modelled collaborator calls: record creation
first (abort on failure); best-effort dependency monitoring (logged only,
not modelled as an effect); on auto-execution, launcher availability check,
room join (caller-supplied room) or room creation (derived room), launch
validation, and on success the status/config update (ACTIVE without
dependencies, IDLE with) and the PID update, both best-effort; on launch
failure the TERMINATED status update with the failure config, best-effort,
followed by the fall-through to the success-shaped return (lines 777-790).
Room calls and the tool-profile lookup are modelled as non-failing; their
exceptions would flow into the same handler as launch failures.  The outer
SPAWN_AGENT_FAILED handler is unreachable here because every collaborator
outcome is reified as a value. -/
def spawn_single_agent (env : SpawnEnv) (agent_type repository_path task_description : String)
    (depends_on : List String) (foundation_session_id : String)
    (auto_execute : Bool) (coordination_room : String) :
    SpawnCallResult × SpawnEffects :=
  if !env.create_agent.success then
    (.error "AGENT_DB_CREATION_FAILED" (env.create_agent.error.getD "Unknown error"),
     ⟨false, none, none, [], []⟩)
  else
    let agent_id := env.create_agent.agent_id
    let agent_name := agent_type ++ "-agent"
    let room_name := roomNameOf coordination_room agent_type agent_id
    if auto_execute then
      if !env.spawn_available then
        (.error "SPAWN_FUNCTION_UNAVAILABLE"
            "spawn_claude_sync function not available due to import failure",
         ⟨false, none, none, [], []⟩)
      else
        let roomCreated := if coordination_room != "" then none else some room_name
        let roomJoined := if coordination_room != "" then some room_name else none
        match validateLaunch env.launch with
        | .ok pid =>
          let updated_config : ExecConfig :=
            ⟨some pid, none, room_name, foundation_session_id, depends_on, task_description, true⟩
          let statusUpdates :=
            if env.status_update_ok then
              [((if depends_on.isEmpty then AgentStatus.active else AgentStatus.idle),
                updated_config)]
            else []
          let pidUpdates := if env.pid_update_ok then [pid] else []
          (.success ⟨agent_id, agent_type, agent_name, task_description, true, some pid,
              .started pid foundation_session_id room_name env.now, room_name⟩,
           ⟨true, roomCreated, roomJoined, statusUpdates, pidUpdates⟩)
        | .error msg =>
          let emsg := "Spawn operation failed: RuntimeError: " ++ msg
          let failed_config : ExecConfig :=
            ⟨none, some emsg, room_name, foundation_session_id, depends_on, task_description, false⟩
          let statusUpdates :=
            if env.status_update_ok then [(AgentStatus.terminated, failed_config)] else []
          (.success ⟨agent_id, agent_type, agent_name, task_description, true, none,
              .failed ("Claude spawn failed: " ++ emsg) "RuntimeError" env.now, room_name⟩,
           ⟨true, roomCreated, roomJoined, statusUpdates, []⟩)
    else
      (.success ⟨agent_id, agent_type, agent_name, task_description, false, none, .empty,
          room_name⟩,
       ⟨false, none, none, [], []⟩)

/-- The stored agent record as read by `get_agent_status`: the fields it
inspects or overwrites (`status`, `claude_pid`); the other keys pass
through the returned dict untouched. -/
structure StoredAgent where
  agent_id : String
  status : String
  claude_pid : Option Nat
  deriving DecidableEq, Repr, Inhabited

/-- What the psutil liveness probe of `get_agent_status` observes for a pid:
the process runs, `is_running()` is false, or the probe raises
NoSuchProcess / AccessDenied. -/
inductive ProbeOutcome
  | running
  | notRunning
  | noSuchProcess
  | accessDenied
  deriving DecidableEq, Repr, Inhabited

/-- The external world of one `get_agent_status` call: the record
`AgentService.get_agent_by_id` returns (or `none`) and the probe outcome
per pid. -/
structure StatusEnv where
  record : Option StoredAgent
  probe : Nat → ProbeOutcome

/-- The collaborator calls a `get_agent_status` call performed: the pids
probed and the `AgentService.complete_agent` calls issued (all of them
awaited before the read returns). -/
structure StatusEffects where
  probes : List Nat
  complete_calls : List String
  deriving DecidableEq, Repr, Inhabited

/-- The value returned by `get_agent_status`: the (possibly updated) agent
record together with the `process_status` key it may add, or an error
dict. -/
inductive StatusCallResult
  | success (agent : StoredAgent) (process_status : Option String)
  | error (code message : String)
  deriving DecidableEq, Repr, Inhabited

/-- `get_agent_status` (lines 355-391).  Missing record: AGENT_NOT_FOUND.
With a truthy `claude_pid` (Python's `if claude_pid:` skips `None` and 0)
the process is probed: running keeps the agent reported active; a
non-running, vanished or access-denied process rewrites `status` to
"completed" and awaits `AgentService.complete_agent` before returning. -/
def get_agent_status (env : StatusEnv) (agent_id : String) :
    StatusCallResult × StatusEffects :=
  match env.record with
  | none => (.error "AGENT_NOT_FOUND" "Agent not found", ⟨[], []⟩)
  | some stored =>
    match stored.claude_pid with
    | none => (.success stored none, ⟨[], []⟩)
    | some p =>
      if p == 0 then (.success stored none, ⟨[], []⟩)
      else
        match env.probe p with
        | .running => (.success { stored with status := "active" } (some "running"), ⟨[p], []⟩)
        | .notRunning =>
          (.success { stored with status := "completed" } (some "completed"), ⟨[p], [agent_id]⟩)
        | .noSuchProcess =>
          (.success { stored with status := "completed" } (some "completed"), ⟨[p], [agent_id]⟩)
        | .accessDenied =>
          (.success { stored with status := "completed" } (some "completed"), ⟨[p], [agent_id]⟩)

/-- The durable lifecycle record of one agent as touched by termination: its
status and whatever reason text the store holds for its termination. -/
structure LifecycleRecord where
  status : AgentStatus
  termination_reason : Option String
  deriving DecidableEq, Repr, Inhabited

/-- Modelled from the spec: `AgentService.terminate_agent` lives in
`..services.agent_service`, which is not under src/.  Per the spec
(section 4.3), an operator-initiated termination transitions any
non-terminal agent to TERMINATED and a terminal or missing agent is
reported back as not-found/already-terminated (the call site maps a falsy
return to that error).  The call site in src passes only `agent_id`, so
the service receives no reason and the stored record's reason field is
left as it was. -/
def AgentService.terminate_agent :
    Option LifecycleRecord → Bool × Option LifecycleRecord
  | none => (false, none)
  | some r =>
    if r.status == .completed || r.status == .terminated then (false, some r)
    else (true, some { r with status := .terminated })

/-- The value returned by the `terminate_agent` tool. -/
inductive TerminateCallResult
  | success (agent_id reason status : String)
  | error (code message : String)
  deriving DecidableEq, Repr, Inhabited

/-- `terminate_agent` (lines 394-406): calls
`AgentService.terminate_agent(agent_id=agent_id)` — the reason parameter
is not forwarded — and echoes the caller-supplied reason in the success
response.  Returns the response together with the durable record after the
call. -/
def terminate_agent (stored : Option LifecycleRecord) (agent_id reason : String) :
    TerminateCallResult × Option LifecycleRecord :=
  let r := AgentService.terminate_agent stored
  if r.1 then (.success agent_id reason "terminated", r.2)
  else (.error "AGENT_NOT_FOUND" "Agent not found or already terminated", r.2)

/-- Request A of the three-request example batch of the spec: no
dependencies. -/
def exA : AgentConfig := ⟨none, some "backend", some "build the api", []⟩

/-- Request B of the example batch: depends on A by positional index 0. -/
def exB : AgentConfig := ⟨none, some "frontend", some "build the ui", ["0"]⟩

/-- Request C of the example batch: depends on the nonexistent id "zzz". -/
def exC : AgentConfig := ⟨none, some "tester", some "test it all", ["zzz"]⟩

/-- The example batch [A, B, C] of the spec. -/
def exBatch : List AgentConfig := [exA, exB, exC]

/-- First request of the wave-reorder batch: depends on the "backend" agent
type, so it can only be placed after the second request. -/
def reorderCfg0 : AgentConfig := ⟨none, some "frontend", some "build the ui", ["backend"]⟩

/-- Second request of the wave-reorder batch: no dependencies, placed in the
first wave. -/
def reorderCfg1 : AgentConfig := ⟨none, some "backend", some "build the api", []⟩

/-- Spawn outcomes for the wave-reorder batch: the backend request's spawn
raises, the frontend request's spawn succeeds. -/
def reorderOracle (c : AgentConfig) : CallOutcome :=
  if c == reorderCfg1 then .raised "RuntimeError: spawn failed for backend"
  else .result ⟨true, none, "agent-frontend"⟩

/-- An environment whose record creation succeeds and whose launcher reports
failure, for the spawn-failure claims. -/
def launchFailEnv : SpawnEnv :=
  ⟨⟨true, "agent-12345678", none⟩, true, ⟨false, some "claude binary missing", false, false, 0, none⟩,
   true, true, "2026-10-12T00:00:00+00:00"⟩

/-- An environment whose record creation fails, for the record-creation
claims. -/
def createFailEnv : SpawnEnv :=
  ⟨⟨false, "", some "db down"⟩, true, ⟨true, none, true, false, 0, some 4242⟩,
   true, true, "2026-10-12T00:00:00+00:00"⟩

/-- An environment whose launch succeeds with pid 4242, for the round-trip
claim. -/
def launchOkEnv : SpawnEnv :=
  ⟨⟨true, "agent-12345678", none⟩, true, ⟨true, none, true, false, 0, some 4242⟩,
   true, true, "2026-10-12T00:00:00+00:00"⟩

/-- A stored agent whose recorded process has exited, for the liveness-probe
claim. -/
def exitedStatusEnv : StatusEnv :=
  ⟨some ⟨"agent-1", "active", some 4242⟩, fun _ => .noSuchProcess⟩

/-- A stored agent without a recorded process identifier, for the frame
claim. -/
def noPidStatusEnv : StatusEnv :=
  ⟨some ⟨"agent-2", "pending", none⟩, fun _ => .running⟩

/-- A single well-formed request, for concrete batch instantiations. -/
def c4Cfg : AgentConfig := ⟨none, some "backend", some "one task", []⟩

/-- Spawn outcomes that always succeed, for concrete batch instantiations. -/
def c4Oracle : AgentConfig → CallOutcome := fun _ => .result ⟨true, none, "agent-1"⟩

/-- Unfolding: a scanned index already in `placed_agents` is skipped. -/
theorem scanWave_cons_skip (cfgs : List AgentConfig) (p : List Nat) (a : Nat) (rest : List Nat)
    (hc : p.contains a = true) :
    scanWave cfgs p (a :: rest) = scanWave cfgs p rest := by
  simp only [scanWave]
  rw [if_pos hc]

/-- Unfolding: a scanned index with satisfied dependencies joins the wave and
`placed_agents`. -/
theorem scanWave_cons_add (cfgs : List AgentConfig) (p : List Nat) (a : Nat) (rest : List Nat)
    (hc : p.contains a = false) (hd : depsOk cfgs p a = true) :
    scanWave cfgs p (a :: rest) = a :: scanWave cfgs (p ++ [a]) rest := by
  simp only [scanWave]
  rw [if_neg (fun hmem => by rw [hmem] at hc; exact Bool.noConfusion hc), if_pos hd]

/-- Unfolding: a scanned index with unsatisfied dependencies stalls. -/
theorem scanWave_cons_stall (cfgs : List AgentConfig) (p : List Nat) (a : Nat) (rest : List Nat)
    (hc : p.contains a = false) (hd : depsOk cfgs p a = false) :
    scanWave cfgs p (a :: rest) = scanWave cfgs p rest := by
  simp only [scanWave]
  rw [if_neg (fun hmem => by rw [hmem] at hc; exact Bool.noConfusion hc),
    if_neg (fun hdep => by rw [hdep] at hd; exact Bool.noConfusion hd)]

/-- Membership from a true `contains` test. -/
theorem mem_of_contains_true {l : List Nat} {a : Nat} (h : l.contains a = true) : a ∈ l :=
  List.elem_iff.mp h

/-- A true `contains` test from membership. -/
theorem contains_true_of_mem {l : List Nat} {a : Nat} (h : a ∈ l) : l.contains a = true :=
  List.elem_iff.mpr h

/-- Non-membership from a false `contains` test. -/
theorem not_mem_of_contains_false {l : List Nat} {a : Nat} (h : l.contains a = false) : a ∉ l :=
  fun hm => by rw [contains_true_of_mem hm] at h; exact Bool.noConfusion h

/-- A false `contains` test from non-membership. -/
theorem contains_false_of_not_mem {l : List Nat} {a : Nat} (h : a ∉ l) : l.contains a = false := by
  cases hb : l.contains a with
  | false => rfl
  | true => exact absurd (mem_of_contains_true hb) h

/-- A dependency found within `placed_agents` stays found when more agents
are placed. -/
theorem depSatisfied_mono (cfgs : List AgentConfig) (p q : List Nat) (dep : String)
    (h : depSatisfied cfgs p dep = true) : depSatisfied cfgs (p ++ q) dep = true := by
  rw [depSatisfied, List.any_eq_true] at h ⊢
  obtain ⟨j, hjr, hj⟩ := h
  rw [Bool.and_eq_true] at hj
  refine ⟨j, hjr, ?_⟩
  rw [Bool.and_eq_true]
  exact ⟨contains_true_of_mem (List.mem_append_left q (mem_of_contains_true hj.1)), hj.2⟩

/-- Satisfied dependencies stay satisfied when more agents are placed. -/
theorem depsOk_mono (cfgs : List AgentConfig) (p q : List Nat) (i : Nat)
    (h : depsOk cfgs p i = true) : depsOk cfgs (p ++ q) i = true := by
  rw [depsOk, List.all_eq_true] at h ⊢
  intro dep hdep
  exact depSatisfied_mono cfgs p q dep (h dep hdep)

/-- Every index a scan places comes from the scanned index list. -/
theorem scanWave_mem_src (cfgs : List AgentConfig) (l : List Nat) :
    ∀ (p : List Nat) (i : Nat), i ∈ scanWave cfgs p l → i ∈ l := by
  induction l with
  | nil => intro p i h; simp [scanWave] at h
  | cons a rest ih =>
    intro p i h
    cases hc : p.contains a with
    | true =>
      rw [scanWave_cons_skip cfgs p a rest hc] at h
      exact List.mem_cons_of_mem a (ih p i h)
    | false =>
      cases hd : depsOk cfgs p a with
      | true =>
        rw [scanWave_cons_add cfgs p a rest hc hd] at h
        rcases List.mem_cons.mp h with rfl | htail
        · exact List.mem_cons_self _ _
        · exact List.mem_cons_of_mem a (ih (p ++ [a]) i htail)
      | false =>
        rw [scanWave_cons_stall cfgs p a rest hc hd] at h
        exact List.mem_cons_of_mem a (ih p i h)

/-- A scan never re-places an index that was already in `placed_agents`. -/
theorem scanWave_not_mem_placed (cfgs : List AgentConfig) (l : List Nat) :
    ∀ (p : List Nat) (i : Nat), i ∈ scanWave cfgs p l → i ∉ p := by
  induction l with
  | nil => intro p i h; simp [scanWave] at h
  | cons a rest ih =>
    intro p i h
    cases hc : p.contains a with
    | true =>
      rw [scanWave_cons_skip cfgs p a rest hc] at h
      exact ih p i h
    | false =>
      cases hd : depsOk cfgs p a with
      | true =>
        rw [scanWave_cons_add cfgs p a rest hc hd] at h
        rcases List.mem_cons.mp h with rfl | htail
        · exact not_mem_of_contains_false hc
        · intro hip
          exact (ih (p ++ [a]) i htail) (List.mem_append_left _ hip)
      | false =>
        rw [scanWave_cons_stall cfgs p a rest hc hd] at h
        exact ih p i h

/-- A scan places each index at most once (every placed index enters
`placed_agents` at once, and placed indices are skipped). -/
theorem scanWave_nodup (cfgs : List AgentConfig) (l : List Nat) :
    ∀ (p : List Nat), (scanWave cfgs p l).Nodup := by
  induction l with
  | nil => intro p; simp [scanWave]
  | cons a rest ih =>
    intro p
    cases hc : p.contains a with
    | true => rw [scanWave_cons_skip cfgs p a rest hc]; exact ih p
    | false =>
      cases hd : depsOk cfgs p a with
      | true =>
        rw [scanWave_cons_add cfgs p a rest hc hd]
        rw [List.nodup_cons]
        refine ⟨?_, ih (p ++ [a])⟩
        intro hmem
        exact (scanWave_not_mem_placed cfgs rest (p ++ [a]) a hmem)
          (List.mem_append_right p (List.mem_singleton.mpr rfl))
      | false => rw [scanWave_cons_stall cfgs p a rest hc hd]; exact ih p

/-- Every request a scan places had its dependencies satisfied within
`placed_agents` as extended by the scan itself. -/
theorem scanWave_sat (cfgs : List AgentConfig) (l : List Nat) :
    ∀ (p : List Nat) (i : Nat), i ∈ scanWave cfgs p l →
      depsOk cfgs (p ++ scanWave cfgs p l) i = true := by
  induction l with
  | nil => intro p i h; simp [scanWave] at h
  | cons a rest ih =>
    intro p i h
    cases hc : p.contains a with
    | true =>
      rw [scanWave_cons_skip cfgs p a rest hc] at h ⊢
      exact ih p i h
    | false =>
      cases hd : depsOk cfgs p a with
      | true =>
        rw [scanWave_cons_add cfgs p a rest hc hd] at h ⊢
        rw [List.append_cons]
        rcases List.mem_cons.mp h with rfl | htail
        · exact depsOk_mono cfgs (p ++ [i]) (scanWave cfgs (p ++ [i]) rest) i
            (depsOk_mono cfgs p [i] i hd)
        · exact ih (p ++ [a]) i htail
      | false =>
        rw [scanWave_cons_stall cfgs p a rest hc hd] at h ⊢
        exact ih p i h

/-- Unfolding: the wave loop stops when every request is placed. -/
theorem organizeAux_stop (cfgs : List AgentConfig) (fuel : Nat) (placed : List Nat)
    (h : ¬ placed.length < cfgs.length) :
    organizeAux cfgs (fuel + 1) placed = ([], none) := by
  simp only [organizeAux]
  rw [if_neg h]

/-- Unfolding: an empty scan triggers the deadlock fallback and the break. -/
theorem organizeAux_fallback (cfgs : List AgentConfig) (fuel : Nat) (placed : List Nat)
    (h : placed.length < cfgs.length)
    (hw : scanWave cfgs placed (List.range cfgs.length) = []) :
    organizeAux cfgs (fuel + 1) placed =
      ([], some ((List.range cfgs.length).filter fun i => !placed.contains i)) := by
  simp [organizeAux, h, hw]

/-- Unfolding: a non-empty scan commits its wave and the loop continues. -/
theorem organizeAux_step (cfgs : List AgentConfig) (fuel : Nat) (placed : List Nat)
    (h : placed.length < cfgs.length)
    (hw : scanWave cfgs placed (List.range cfgs.length) ≠ []) :
    organizeAux cfgs (fuel + 1) placed =
      (scanWave cfgs placed (List.range cfgs.length) ::
        (organizeAux cfgs fuel (placed ++ scanWave cfgs placed (List.range cfgs.length))).1,
       (organizeAux cfgs fuel (placed ++ scanWave cfgs placed (List.range cfgs.length))).2) := by
  simp [organizeAux, h, List.isEmpty_iff, hw]

/-- `getD` of the empty wave list is the empty wave. -/
theorem getD_nil_wave (k : Nat) : ([] : List (List Nat)).getD k [] = [] := by
  cases k <;> rfl

/-- Loop invariant of the wave loop: whenever a request lands in the k-th
committed wave, each of its dependency references is matched by some index
that was either already placed on entry or sits in a committed wave of
index at most k. -/
theorem organizeAux_order (cfgs : List AgentConfig) :
    ∀ (fuel : Nat) (p : List Nat) (k i : Nat),
      i ∈ (organizeAux cfgs fuel p).1.getD k [] →
      ∀ dep ∈ (cfgs.getD i default).depends_on,
        ∃ j, depMatches cfgs j dep = true ∧
          (j ∈ p ∨ ∃ r, r ≤ k ∧ j ∈ (organizeAux cfgs fuel p).1.getD r []) := by
  intro fuel
  induction fuel with
  | zero =>
    intro p k i h
    rw [show (organizeAux cfgs 0 p).1 = [] from rfl, getD_nil_wave] at h
    exact absurd h (List.not_mem_nil i)
  | succ fuel ih =>
    intro p k i h dep hdep
    by_cases hlen : p.length < cfgs.length
    · by_cases hwe : scanWave cfgs p (List.range cfgs.length) = []
      · rw [organizeAux_fallback cfgs fuel p hlen hwe] at h
        rw [getD_nil_wave] at h
        exact absurd h (List.not_mem_nil i)
      · rw [organizeAux_step cfgs fuel p hlen hwe] at h
        cases k with
        | zero =>
          rw [List.getD_cons_zero] at h
          have hs := scanWave_sat cfgs (List.range cfgs.length) p i h
          rw [depsOk, List.all_eq_true] at hs
          have hsd := hs dep hdep
          rw [depSatisfied, List.any_eq_true] at hsd
          obtain ⟨j, hjr, hj⟩ := hsd
          rw [Bool.and_eq_true] at hj
          refine ⟨j, hj.2, ?_⟩
          rcases List.mem_append.mp (mem_of_contains_true hj.1) with hjp | hjw
          · exact Or.inl hjp
          · refine Or.inr ⟨0, Nat.le_refl 0, ?_⟩
            rw [organizeAux_step cfgs fuel p hlen hwe, List.getD_cons_zero]
            exact hjw
        | succ k =>
          rw [List.getD_cons_succ] at h
          obtain ⟨j, hjm, hjloc⟩ :=
            ih (p ++ scanWave cfgs p (List.range cfgs.length)) k i h dep hdep
          refine ⟨j, hjm, ?_⟩
          rcases hjloc with hjpw | ⟨r, hrk, hjr⟩
          · rcases List.mem_append.mp hjpw with hjp | hjw
            · exact Or.inl hjp
            · refine Or.inr ⟨0, Nat.zero_le _, ?_⟩
              rw [organizeAux_step cfgs fuel p hlen hwe, List.getD_cons_zero]
              exact hjw
          · refine Or.inr ⟨r + 1, Nat.succ_le_succ hrk, ?_⟩
            rw [organizeAux_step cfgs fuel p hlen hwe, List.getD_cons_succ]
            exact hjr
    · rw [organizeAux_stop cfgs fuel p hlen] at h
      rw [getD_nil_wave] at h
      exact absurd h (List.not_mem_nil i)

/-- Committed-wave ordering for `_organize_by_dependencies`: every dependency
reference of a request placed in committed wave k is matched by some
request placed in a committed wave of index at most k. -/
theorem committedWaves_order (cfgs : List AgentConfig) (k i : Nat) (dep : String)
    (h : i ∈ (committedWaves cfgs).getD k [])
    (hdep : dep ∈ (cfgs.getD i default).depends_on) :
    ∃ j r, r ≤ k ∧ j ∈ (committedWaves cfgs).getD r [] ∧ depMatches cfgs j dep = true := by
  obtain ⟨j, hjm, hjloc⟩ :=
    organizeAux_order cfgs (cfgs.length + 1) [] k i h dep hdep
  rcases hjloc with hj | ⟨r, hrk, hjr⟩
  · exact absurd hj (List.not_mem_nil j)
  · exact ⟨j, r, hrk, hjr, hjm⟩

/-- `contains` distributes over list append. -/
theorem contains_append_eq (p w : List Nat) (x : Nat) :
    (p ++ w).contains x = (p.contains x || w.contains x) := by
  cases hp : p.contains x with
  | true =>
    simp only [Bool.true_or]
    exact contains_true_of_mem (List.mem_append_left _ (mem_of_contains_true hp))
  | false =>
    cases hw : w.contains x with
    | true =>
      simp only [Bool.false_or]
      exact contains_true_of_mem (List.mem_append_right _ (mem_of_contains_true hw))
    | false =>
      simp only [Bool.false_or]
      exact contains_false_of_not_mem fun hm =>
        (List.mem_append.mp hm).elim
          (fun hmp => not_mem_of_contains_false hp hmp)
          (fun hmw => not_mem_of_contains_false hw hmw)

/-- Filtering out the members of `p ++ w` filters out the members of `p` and
then the members of `w`. -/
theorem filter_not_contains_append (p w L : List Nat) :
    L.filter (fun x => !(p ++ w).contains x) =
      (L.filter fun x => !p.contains x).filter (fun x => !w.contains x) := by
  rw [List.filter_filter]
  apply List.filter_congr
  intro x _
  rw [contains_append_eq]
  cases p.contains x <;> cases w.contains x <;> rfl

/-- A nodup list drawn from a nodup list is a permutation of the matching
filter of the larger list. -/
theorem perm_filter_contains (w L : List Nat) (hw : w.Nodup) (hL : L.Nodup)
    (hsub : ∀ x ∈ w, x ∈ L) :
    List.Perm w (L.filter fun x => w.contains x) := by
  refine (List.perm_ext_iff_of_nodup hw (hL.filter _)).mpr ?_
  intro a
  constructor
  · intro ha
    exact List.mem_filter.mpr ⟨hsub a ha, contains_true_of_mem ha⟩
  · intro ha
    exact mem_of_contains_true (List.mem_filter.mp ha).2

/-- Coverage invariant of the wave loop: the committed waves plus the
fallback wave are, as a multiset, exactly the not-yet-placed request
indices — nothing is dropped and nothing is placed twice. -/
theorem organizeAux_perm (cfgs : List AgentConfig) :
    ∀ (fuel : Nat) (p : List Nat), p.Nodup → (∀ x ∈ p, x < cfgs.length) →
      cfgs.length - p.length < fuel →
      List.Perm
        ((organizeAux cfgs fuel p).1.flatten ++ ((organizeAux cfgs fuel p).2.getD []))
        ((List.range cfgs.length).filter fun i => !p.contains i) := by
  intro fuel
  induction fuel with
  | zero =>
    intro p _ _ hf
    exact absurd hf (Nat.not_lt_zero _)
  | succ fuel ih =>
    intro p hnd hsub hf
    by_cases hlen : p.length < cfgs.length
    · by_cases hwe : scanWave cfgs p (List.range cfgs.length) = []
      · rw [organizeAux_fallback cfgs fuel p hlen hwe]
        simp
      · rw [organizeAux_step cfgs fuel p hlen hwe]
        have hwnd : (scanWave cfgs p (List.range cfgs.length)).Nodup :=
          scanWave_nodup cfgs (List.range cfgs.length) p
        have hwlt : ∀ x ∈ scanWave cfgs p (List.range cfgs.length), x < cfgs.length := by
          intro x hx
          exact List.mem_range.mp (scanWave_mem_src cfgs (List.range cfgs.length) p x hx)
        have hdisj : p.Disjoint (scanWave cfgs p (List.range cfgs.length)) := by
          intro x hxp hxw
          exact scanWave_not_mem_placed cfgs (List.range cfgs.length) p x hxw hxp
        have hnd2 : (p ++ scanWave cfgs p (List.range cfgs.length)).Nodup :=
          List.Nodup.append hnd hwnd hdisj
        have hsub2 : ∀ x ∈ p ++ scanWave cfgs p (List.range cfgs.length), x < cfgs.length := by
          intro x hx
          rcases List.mem_append.mp hx with hxp | hxw
          · exact hsub x hxp
          · exact hwlt x hxw
        have hf2 : cfgs.length - (p ++ scanWave cfgs p (List.range cfgs.length)).length < fuel := by
          have hwpos : 0 < (scanWave cfgs p (List.range cfgs.length)).length :=
            List.length_pos.mpr hwe
          rw [List.length_append]
          omega
        have hrec := ih (p ++ scanWave cfgs p (List.range cfgs.length)) hnd2 hsub2 hf2
        rw [show ((scanWave cfgs p (List.range cfgs.length) ::
              (organizeAux cfgs fuel (p ++ scanWave cfgs p (List.range cfgs.length))).1,
              (organizeAux cfgs fuel (p ++ scanWave cfgs p (List.range cfgs.length))).2) :
              List (List Nat) × Option (List Nat)).1.flatten =
            scanWave cfgs p (List.range cfgs.length) ++
              (organizeAux cfgs fuel (p ++ scanWave cfgs p (List.range cfgs.length))).1.flatten
          from rfl]
        rw [List.append_assoc]
        refine List.Perm.trans (List.Perm.append_left _ hrec) ?_
        rw [filter_not_contains_append]
        have hwperm := perm_filter_contains (scanWave cfgs p (List.range cfgs.length))
          ((List.range cfgs.length).filter fun i => !p.contains i)
          hwnd ((List.nodup_range _).filter _) ?_
        · refine List.Perm.trans
            ((List.perm_append_right_iff _).mpr hwperm) ?_
          exact List.filter_append_perm _ _
        · intro x hx
          refine List.mem_filter.mpr ⟨List.mem_range.mpr (hwlt x hx), ?_⟩
          rw [contains_false_of_not_mem
            (scanWave_not_mem_placed cfgs (List.range cfgs.length) p x hx)]
          rfl
    · rw [organizeAux_stop cfgs fuel p hlen]
      have hall : ∀ i, i < cfgs.length → i ∈ p := by
        intro i hi
        have hcard : p.toFinset.card = p.length := List.toFinset_card_of_nodup hnd
        have hsubf : p.toFinset ⊆ Finset.range cfgs.length := by
          intro x hx
          rw [List.mem_toFinset] at hx
          exact Finset.mem_range.mpr (hsub x hx)
        have heq : p.toFinset = Finset.range cfgs.length :=
          Finset.eq_of_subset_of_card_le hsubf
            (by rw [hcard, Finset.card_range]; exact Nat.le_of_not_lt hlen)
        have : i ∈ p.toFinset := by rw [heq]; exact Finset.mem_range.mpr hi
        exact List.mem_toFinset.mp this
      have hfil : ((List.range cfgs.length).filter fun i => !p.contains i) = [] := by
        apply List.filter_eq_nil_iff.mpr
        intro a ha
        rw [contains_true_of_mem (hall a (List.mem_range.mp ha))]
        simp
      rw [hfil]
      simp

/-- The flattened waves are the flattened committed waves followed by the
fallback wave (empty fallback contributes nothing either way). -/
theorem waveIndices_flatten_eq (cfgs : List AgentConfig) :
    (waveIndices cfgs).flatten =
      (committedWaves cfgs).flatten ++ ((fallbackWave cfgs).getD []) := by
  rw [waveIndices, List.flatten_append]
  congr 1
  cases hfb : fallbackWave cfgs with
  | none => simp
  | some r =>
    cases r with
    | nil => simp
    | cons a t => simp

/-- The flattened waves of `_organize_by_dependencies` are a permutation of
all request indices. -/
theorem waveIndices_perm_range (cfgs : List AgentConfig) :
    List.Perm ((waveIndices cfgs).flatten) (List.range cfgs.length) := by
  rw [waveIndices_flatten_eq]
  have h := organizeAux_perm cfgs (cfgs.length + 1) [] List.nodup_nil
    (by intro x hx; cases hx) (by omega)
  have hfil : ((List.range cfgs.length).filter fun i => !([] : List Nat).contains i) =
      List.range cfgs.length := by
    apply List.filter_eq_self.mpr
    intro a _
    rfl
  rw [hfil] at h
  exact h

/-- Each request index appears in exactly one wave of
`_organize_by_dependencies`. -/
theorem waveIndices_count (cfgs : List AgentConfig) (i : Nat) (h : i < cfgs.length) :
    ((waveIndices cfgs).flatten).count i = 1 := by
  rw [List.Perm.count_eq (waveIndices_perm_range cfgs) i]
  exact List.count_eq_one_of_mem (List.nodup_range _) (List.mem_range.mpr h)

/-- When the deadlock fallback fires with stalled requests, they form the
single terminal wave. -/
theorem fallback_is_last (cfgs : List AgentConfig) (r : List Nat)
    (hfb : fallbackWave cfgs = some r) (hne : r ≠ []) :
    waveIndices cfgs = committedWaves cfgs ++ [r] := by
  rw [waveIndices, hfb]
  cases r with
  | nil => exact absurd rfl hne
  | cons a t => simp

/-- C2 counterexample: on the spec's own three-request example — A without
dependencies, B depending on A by index 0, C depending on the nonexistent
id "zzz" — `_organize_by_dependencies` computes [[A, B], [C]], because the
scan loop adds placed requests to `placed_agents` mid-scan and therefore
places B in the same wave as its dependency A; the claimed [[A], [B], [C]]
is not the computed value, and B's wave index is not strictly greater than
A's. -/
theorem claim_C2_counterexample :
    organize_by_dependencies exBatch = [[exA, exB], [exC]] ∧
    organize_by_dependencies exBatch ≠ [[exA], [exB], [exC]] := by
  decide

/-- C2 (amended): in dependency_based mode, every dependency reference of a
request placed in committed wave k is matched by some request in a
committed wave of index AT MOST k (equality occurs when the matching
request precedes it in input order within the same scan); every request
index appears in exactly one wave, so unsatisfiable or cyclic dependency
sets are not dropped; when the deadlock fallback fires, the stalled
requests form the single terminal wave; and the spec's three-request
example computes waves [[A, B], [C]]. -/
theorem claim_C2_amended :
    (∀ (cfgs : List AgentConfig) (k i : Nat) (dep : String),
        i ∈ (committedWaves cfgs).getD k [] →
        dep ∈ (cfgs.getD i default).depends_on →
        ∃ j r, r ≤ k ∧ j ∈ (committedWaves cfgs).getD r [] ∧ depMatches cfgs j dep = true) ∧
    (∀ (cfgs : List AgentConfig) (i : Nat), i < cfgs.length →
        ((waveIndices cfgs).flatten).count i = 1) ∧
    (∀ (cfgs : List AgentConfig) (r : List Nat), fallbackWave cfgs = some r → r ≠ [] →
        waveIndices cfgs = committedWaves cfgs ++ [r]) ∧
    organize_by_dependencies exBatch = [[exA, exB], [exC]] :=
  ⟨committedWaves_order, waveIndices_count, fallback_is_last, by decide⟩

/-- C2 witness: on the example batch, request B (index 1, in committed wave
0) has its dependency "0" matched inside a committed wave of index at most
0, and request C (index 2) appears in exactly one wave. -/
theorem claim_C2_witness :
    (∃ j r, r ≤ 0 ∧ j ∈ (committedWaves exBatch).getD r [] ∧
        depMatches exBatch j "0" = true) ∧
    ((waveIndices exBatch).flatten).count 2 = 1 :=
  ⟨claim_C2_amended.1 exBatch 0 1 "0" (by decide) (by decide),
   claim_C2_amended.2.1 exBatch 2 (by decide)⟩

/-- All modes build one `results` entry per spawned request, in execution
order. -/
theorem batchResults_eq_map (oracle : AgentConfig → CallOutcome) (cfgs : List AgentConfig)
    (mode : CoordinationMode) :
    batchResults oracle cfgs mode = (batchSpawnOrder cfgs mode).map oracle := by
  cases mode with
  | sequential => rfl
  | parallel => rfl
  | dependency_based => exact (List.map_flatten oracle _).symm

/-- `(range l.length).map (getD l)` reproduces the list. -/
theorem map_getD_range (l : List AgentConfig) :
    (List.range l.length).map (fun i => l.getD i default) = l := by
  induction l with
  | nil => rfl
  | cons a t ih =>
    rw [List.length_cons, List.range_succ_eq_map, List.map_cons, List.map_map]
    have htail : ((fun i => (a :: t).getD i default) ∘ Nat.succ) =
        (fun i => t.getD i default) := funext fun i => List.getD_cons_succ
    rw [htail, ih, List.getD_cons_zero]

/-- In every mode the spawned requests are a permutation of the input batch:
each input request is handed to the spawner exactly once. -/
theorem batchSpawnOrder_perm (cfgs : List AgentConfig) (mode : CoordinationMode) :
    List.Perm (batchSpawnOrder cfgs mode) cfgs := by
  cases mode with
  | sequential => exact List.Perm.refl _
  | parallel => exact List.Perm.refl _
  | dependency_based =>
    show List.Perm ((organize_by_dependencies cfgs).flatten) cfgs
    rw [organize_by_dependencies]
    rw [show ((waveIndices cfgs).map fun w => w.map fun i => cfgs.getD i default).flatten =
        ((waveIndices cfgs).flatten).map (fun i => cfgs.getD i default) from
      (List.map_flatten _ _).symm]
    have hp := (waveIndices_perm_range cfgs).map (fun i => cfgs.getD i default)
    rw [map_getD_range cfgs] at hp
    exact hp

/-- The classification loop splits every result into exactly one of the two
outcome lists. -/
theorem classifyGo_length (cfgs : List AgentConfig) :
    ∀ (i : Nat) (rs : List CallOutcome),
      (classifyGo cfgs i rs).1.length + (classifyGo cfgs i rs).2.length = rs.length := by
  intro i rs
  induction rs generalizing i with
  | nil => rfl
  | cons r rest ih =>
    cases r with
    | raised msg =>
      simp only [classifyGo, List.length_cons]
      have := ih (i + 1)
      omega
    | result d =>
      by_cases hs : d.success = true
      · simp only [classifyGo]
        rw [if_pos hs]
        simp only [List.length_cons]
        have := ih (i + 1)
        omega
      · simp only [classifyGo]
        rw [if_neg hs]
        simp only [List.length_cons]
        have := ih (i + 1)
        omega

/-- C4: every batch accepted by `spawn_agents_batch` (any mode, any mix of
per-request successes, failure payloads and raised exceptions) returns a
BatchResult with `len(successful_agents) + len(failed_agents) ==
total_requested`, `total_requested` equal to the input request count, and
with the spawned requests a permutation of the input batch — exactly one
outcome per input request, none dropped, none duplicated. -/
theorem claim_C4 (oracle : AgentConfig → CallOutcome) (cfgs : List AgentConfig)
    (mode : CoordinationMode) (r : BatchResult)
    (h : spawn_agents_batch oracle cfgs mode = .ok r) :
    r.successful_agents.length + r.failed_agents.length = r.batch_stats.total_requested ∧
    r.batch_stats.total_requested = cfgs.length ∧
    List.Perm (batchSpawnOrder cfgs mode) cfgs := by
  have hlenres : (batchResults oracle cfgs mode).length = cfgs.length := by
    rw [batchResults_eq_map, List.length_map]
    exact (batchSpawnOrder_perm cfgs mode).length_eq
  rw [spawn_agents_batch] at h
  by_cases he : cfgs.isEmpty
  · rw [if_pos he] at h
    exact BatchOutput.noConfusion h
  · rw [if_neg he] at h
    cases hm : findMissingField 0 cfgs with
    | some e =>
      rw [hm] at h
      exact BatchOutput.noConfusion h
    | none =>
      rw [hm] at h
      have h3 : BatchOutput.ok
          (⟨⟨cfgs.length,
             (classifyGo cfgs 0 (batchResults oracle cfgs mode)).1.length,
             (classifyGo cfgs 0 (batchResults oracle cfgs mode)).2.length⟩,
            (classifyGo cfgs 0 (batchResults oracle cfgs mode)).1,
            (classifyGo cfgs 0 (batchResults oracle cfgs mode)).2⟩ : BatchResult) =
          BatchOutput.ok r := h
      injection h3 with h2
      rw [← h2]
      refine ⟨?_, rfl, batchSpawnOrder_perm cfgs mode⟩
      rw [classifyGo_length cfgs 0 (batchResults oracle cfgs mode)]
      exact hlenres

/-- C4 witness: a singleton sequential batch with one successful spawn has
1 + 0 = 1 outcomes and spawns the single request exactly once. -/
theorem claim_C4_witness :
    ([(⟨true, none, "agent-1"⟩ : ItemDict)].length + ([] : List FailedEntry).length = 1) ∧
    ((1 : Nat) = [c4Cfg].length) ∧
    List.Perm (batchSpawnOrder [c4Cfg] CoordinationMode.sequential) [c4Cfg] :=
  claim_C4 c4Oracle [c4Cfg] CoordinationMode.sequential
    ⟨⟨1, 1, 0⟩, [⟨true, none, "agent-1"⟩], []⟩ (by decide)

/-- C3: in dependency_based mode the classification loop pairs the i-th
entry of the wave-ordered `results` list with `agents_config[i]` in input
order.  On the two-request batch [frontend depending on "backend", backend
with no dependency], the waves reorder execution to [backend, frontend];
the backend spawn raises while the frontend spawn succeeds, yet the only
failed_agents entry carries index 0 and the FRONTEND request's
configuration — the entry does not retain the failed request's original
configuration and index, contradicting the claim for dependency_based
mode. -/
theorem claim_C3_code_bug :
    spawn_agents_batch reorderOracle [reorderCfg0, reorderCfg1] CoordinationMode.dependency_based =
      .ok ⟨⟨2, 1, 1⟩, [⟨true, none, "agent-frontend"⟩],
        [⟨0, reorderCfg0, "RuntimeError: spawn failed for backend"⟩]⟩ ∧
    reorderOracle reorderCfg0 = .result ⟨true, none, "agent-frontend"⟩ ∧
    reorderOracle reorderCfg1 = .raised "RuntimeError: spawn failed for backend" ∧
    reorderCfg0 ≠ reorderCfg1 := by
  decide

/-- C1 counterexample: with record creation succeeding and the launcher
reporting failure, `_spawn_single_agent` does NOT return a failure result —
the except handler falls through to the success-shaped return (line 777,
`"success": True`) — even though the agent is marked TERMINATED. -/
theorem claim_C1_counterexample :
    isErrorResult
        (spawn_single_agent launchFailEnv "backend" "/repo" "do the task" [] "" true "").1 =
      false ∧
    (spawn_single_agent launchFailEnv "backend" "/repo" "do the task" [] "" true
        "").2.status_updates.map Prod.fst = [AgentStatus.terminated] := by
  decide

/-- C1 (amended): when the durable record is created and a later
auto-execution step fails launch validation (launch reports failure, no
process handle, process already dead, or no PID), the agent's status is
set to TERMINATED best-effort with the error text in the persisted config,
the failure timestamp is recorded in the returned execution_info, but the
call returns the success-shaped result (top-level success, claude_pid
None, execution_info carrying spawn_success False and the error) rather
than a failure result; only launcher unavailability yields the distinct
SPAWN_FUNCTION_UNAVAILABLE failure result. -/
theorem claim_C1_amended (env : SpawnEnv)
    (agent_type repository_path task_description : String) (depends_on : List String)
    (foundation_session_id coordination_room msg : String)
    (hcreate : env.create_agent.success = true)
    (havail : env.spawn_available = true)
    (hlaunch : validateLaunch env.launch = .error msg) :
    spawn_single_agent env agent_type repository_path task_description depends_on
        foundation_session_id true coordination_room =
      (.success ⟨env.create_agent.agent_id, agent_type, agent_type ++ "-agent",
          task_description, true, none,
          .failed ("Claude spawn failed: " ++ ("Spawn operation failed: RuntimeError: " ++ msg))
            "RuntimeError" env.now,
          roomNameOf coordination_room agent_type env.create_agent.agent_id⟩,
       ⟨true,
        (if coordination_room != "" then none
         else some (roomNameOf coordination_room agent_type env.create_agent.agent_id)),
        (if coordination_room != "" then
           some (roomNameOf coordination_room agent_type env.create_agent.agent_id)
         else none),
        (if env.status_update_ok then
           [(AgentStatus.terminated,
             ⟨none, some ("Spawn operation failed: RuntimeError: " ++ msg),
              roomNameOf coordination_room agent_type env.create_agent.agent_id,
              foundation_session_id, depends_on, task_description, false⟩)]
         else []),
        []⟩) := by
  simp [spawn_single_agent, hcreate, havail, hlaunch]

/-- C1 witness: the amended behavior instantiated at a launcher that reports
failure. -/
theorem claim_C1_witness :
    spawn_single_agent launchFailEnv "backend" "/repo" "do the task" [] "" true "" =
      (.success ⟨"agent-12345678", "backend", "backend-agent", "do the task", true, none,
          .failed
            "Claude spawn failed: Spawn operation failed: RuntimeError: Claude CLI spawn failed: claude binary missing"
            "RuntimeError" "2026-10-12T00:00:00+00:00",
          "backend-agent-12"⟩,
       ⟨true, some "backend-agent-12", none,
        [(AgentStatus.terminated,
          ⟨none,
           some "Spawn operation failed: RuntimeError: Claude CLI spawn failed: claude binary missing",
           "backend-agent-12", "", [], "do the task", false⟩)],
        []⟩) :=
  claim_C1_amended launchFailEnv "backend" "/repo" "do the task" [] "" ""
    "Claude CLI spawn failed: claude binary missing" rfl rfl rfl

/-- C6: when creation of the durable agent record fails,
`_spawn_single_agent` aborts immediately with the record-creation error
kind (literal code AGENT_DB_CREATION_FAILED, the spec's
RECORD_CREATION_FAILED) and no collaborator call is made — in particular
the launcher is never invoked. -/
theorem claim_C6 (env : SpawnEnv)
    (agent_type repository_path task_description : String) (depends_on : List String)
    (foundation_session_id : String) (auto_execute : Bool) (coordination_room : String)
    (hcreate : env.create_agent.success = false) :
    spawn_single_agent env agent_type repository_path task_description depends_on
        foundation_session_id auto_execute coordination_room =
      (.error "AGENT_DB_CREATION_FAILED" (env.create_agent.error.getD "Unknown error"),
       ⟨false, none, none, [], []⟩) := by
  simp [spawn_single_agent, hcreate]

/-- C6 witness: the record-creation failure path at a concrete environment;
the effect log shows the launcher was not called. -/
theorem claim_C6_witness :
    spawn_single_agent createFailEnv "backend" "/repo" "do the task" [] "" true "" =
      (.error "AGENT_DB_CREATION_FAILED" "db down", ⟨false, none, none, [], []⟩) :=
  claim_C6 createFailEnv "backend" "/repo" "do the task" [] "" true "" rfl

/-- C8: after a successful spawn with auto-execution whose status update
reaches the store, the configuration recorded for the agent contains the
launched process identifier, the coordination room name that was used, and
the dependency list exactly as supplied, and the returned payload carries
the same pid and room. -/
theorem claim_C8 (env : SpawnEnv)
    (agent_type repository_path task_description : String) (depends_on : List String)
    (foundation_session_id coordination_room : String) (pid : Nat)
    (hcreate : env.create_agent.success = true)
    (havail : env.spawn_available = true)
    (hlaunch : validateLaunch env.launch = .ok pid)
    (hstatus : env.status_update_ok = true) :
    (spawn_single_agent env agent_type repository_path task_description depends_on
        foundation_session_id true coordination_room).2.status_updates =
      [((if depends_on.isEmpty then AgentStatus.active else AgentStatus.idle),
        ⟨some pid, none, roomNameOf coordination_room agent_type env.create_agent.agent_id,
         foundation_session_id, depends_on, task_description, true⟩)] ∧
    (spawn_single_agent env agent_type repository_path task_description depends_on
        foundation_session_id true coordination_room).1 =
      .success ⟨env.create_agent.agent_id, agent_type, agent_type ++ "-agent",
        task_description, true, some pid,
        .started pid foundation_session_id
          (roomNameOf coordination_room agent_type env.create_agent.agent_id) env.now,
        roomNameOf coordination_room agent_type env.create_agent.agent_id⟩ := by
  constructor <;> simp [spawn_single_agent, hcreate, havail, hlaunch, hstatus]

/-- C8 witness: a successful launch with pid 4242, a caller-supplied room and
two dependencies records exactly those values. -/
theorem claim_C8_witness :
    (spawn_single_agent launchOkEnv "backend" "/repo" "do the task" ["agent-a", "agent-b"]
        "sess-1" true "team-room").2.status_updates =
      [(AgentStatus.idle,
        ⟨some 4242, none, "team-room", "sess-1", ["agent-a", "agent-b"], "do the task", true⟩)] ∧
    (spawn_single_agent launchOkEnv "backend" "/repo" "do the task" ["agent-a", "agent-b"]
        "sess-1" true "team-room").1 =
      .success ⟨"agent-12345678", "backend", "backend-agent", "do the task", true, some 4242,
        .started 4242 "sess-1" "team-room" "2026-10-12T00:00:00+00:00", "team-room"⟩ :=
  claim_C8 launchOkEnv "backend" "/repo" "do the task" ["agent-a", "agent-b"] "sess-1"
    "team-room" 4242 rfl rfl rfl rfl

/-- C7: a `get_agent_status` read of an agent with a recorded (truthy)
process identifier probes the process; when the probe says not running, or
raises NoSuchProcess or AccessDenied, the returned record's status is
rewritten to "completed" and `AgentService.complete_agent` is awaited
within the call, before the read returns. -/
theorem claim_C7 (env : StatusEnv) (agent_id : String) (stored : StoredAgent) (p : Nat)
    (hrec : env.record = some stored) (hpid : stored.claude_pid = some p) (hp0 : p ≠ 0)
    (hprobe : env.probe p ≠ ProbeOutcome.running) :
    get_agent_status env agent_id =
      (.success { stored with status := "completed" } (some "completed"),
       ⟨[p], [agent_id]⟩) := by
  cases hpr : env.probe p with
  | running => exact absurd hpr hprobe
  | notRunning => simp [get_agent_status, hrec, hpid, hp0, hpr]
  | noSuchProcess => simp [get_agent_status, hrec, hpid, hp0, hpr]
  | accessDenied => simp [get_agent_status, hrec, hpid, hp0, hpr]

/-- C7 witness: a stored agent whose pid 4242 probe raises NoSuchProcess is
returned completed with the completion persisted in the same call. -/
theorem claim_C7_witness :
    get_agent_status exitedStatusEnv "agent-1" =
      (.success ⟨"agent-1", "completed", some 4242⟩ (some "completed"),
       ⟨[4242], ["agent-1"]⟩) :=
  claim_C7 exitedStatusEnv "agent-1" ⟨"agent-1", "active", some 4242⟩ 4242 rfl rfl
    (by decide) (by decide)

/-- C10: a `get_agent_status` read of an existing agent without a recorded
process identifier performs no probe and no store write, and returns the
record exactly as stored. -/
theorem claim_C10 (env : StatusEnv) (agent_id : String) (stored : StoredAgent)
    (hrec : env.record = some stored) (hpid : stored.claude_pid = none) :
    get_agent_status env agent_id = (.success stored none, ⟨[], []⟩) := by
  simp [get_agent_status, hrec, hpid]

/-- C10 witness: a pending agent without a pid is returned unchanged with an
empty effect log. -/
theorem claim_C10_witness :
    get_agent_status noPidStatusEnv "agent-2" =
      (.success ⟨"agent-2", "pending", none⟩ none, ⟨[], []⟩) :=
  claim_C10 noPidStatusEnv "agent-2" ⟨"agent-2", "pending", none⟩ rfl rfl

/-- C9 counterexample: `terminate_agent` passes only the agent id to the
durable service, so the durable record after terminating an active agent
is identical for two different reasons and carries no reason text; the
caller-supplied reason is only echoed in the transient response. -/
theorem claim_C9_counterexample :
    (terminate_agent (some ⟨AgentStatus.active, none⟩) "agent-1" "operator cleanup").2 =
      (terminate_agent (some ⟨AgentStatus.active, none⟩) "agent-1" "a different reason").2 ∧
    (terminate_agent (some ⟨AgentStatus.active, none⟩) "agent-1" "operator cleanup").2 =
      some ⟨AgentStatus.terminated, none⟩ ∧
    (terminate_agent (some ⟨AgentStatus.active, none⟩) "agent-1" "operator cleanup").1 =
      .success "agent-1" "operator cleanup" "terminated" := by
  decide

/-- C9 (amended): `terminate_agent` on a non-terminal agent transitions the
durable record to TERMINATED and returns a success payload echoing the
caller-supplied reason; the reason is not written to the durable record
(the service call carries only the agent id, so the stored reason field is
whatever it was before). -/
theorem claim_C9_amended (stored : LifecycleRecord) (agent_id reason : String)
    (h1 : stored.status ≠ AgentStatus.completed)
    (h2 : stored.status ≠ AgentStatus.terminated) :
    terminate_agent (some stored) agent_id reason =
      (.success agent_id reason "terminated",
       some { stored with status := AgentStatus.terminated }) := by
  have hsvc : AgentService.terminate_agent (some stored) =
      (true, some { stored with status := AgentStatus.terminated }) := by
    simp [AgentService.terminate_agent, h1, h2]
  simp [terminate_agent, hsvc]

/-- C9 witness: the amended behavior instantiated at an active agent and a
concrete reason string. -/
theorem claim_C9_witness :
    terminate_agent (some ⟨AgentStatus.active, none⟩) "agent-9" "cleanup please" =
      (.success "agent-9" "cleanup please" "terminated",
       some ⟨AgentStatus.terminated, none⟩) :=
  claim_C9_amended ⟨AgentStatus.active, none⟩ "agent-9" "cleanup please"
    (by decide) (by decide)
